import Mathlib

/-!
# Verification of the X-buzz platform-client wrapper

A shallow embedding of the repository's TypeScript sources:

* `src/config/env.ts` — environment-based configuration loading
  (`getEnvVar`, `loadConfig`);
* `src/lib/twitter/client.ts` — the `TwitterClient` wrapper (constructor,
  `verifyCredentials`, `getUser`, `getUserById`, `getUserTweets`, `getTweet`,
  `searchTweets`, `getRateLimitInfo`, `getAllRateLimits`, `mapTweet`,
  `mapUser`, `handleError`);
* `src/lib/twitter/types.ts` — the domain model shapes.

Modelling conventions:

* JavaScript numbers appearing as counters are modelled as `Int` (negative
  values are representable, as in JS; `NaN`/floats do not arise in the
  claims under study).
* `undefined`/absent object fields are modelled as `Option`.
* JS truthiness of a possibly-absent string (`x ? a : b`, `x || d`) is
  modelled explicitly: `none` and `some ""` are falsy.
* `x || d` on a possibly-absent number is modelled with `0` falsy.
* `new Date(s)` depends on the host's date parser and `new Date()` on the
  host clock; both ambient effects are supplied through a `Host` record
  carrying an abstract parser `parseDateMs : String → Option Int` (`none`
  means the host cannot parse the string, in which case JS yields an
  Invalid Date) and the current clock `nowMs`.
* A `try { ... } catch` around the single fallible underlying-client call is
  modelled by passing the call's outcome as `Except ThrownValue resp`; a JS
  `throw` of a non-`Error` value is the `ThrownValue.other` constructor.
* The mutable `rateLimits : Map<string, RateLimitInfo>` is modelled as an
  association list with JS `Map.set` semantics (update in place, else
  append); each wrapper operation threads it explicitly.
-/

namespace XBuzz

/-! ## JS-semantics helpers -/

/-- JS `x || d` for a possibly-absent number: `undefined` and `0` are falsy. -/
def jsOrNum (x : Option Int) (d : Int) : Int :=
  match x with
  | none => d
  | some v => if v = 0 then d else v

/-- JS `x || d` for a possibly-absent string: `undefined` and `""` are falsy. -/
def jsOrStr (x : Option String) (d : String) : String :=
  match x with
  | none => d
  | some s => if s = "" then d else s

/-- JS truthiness of a possibly-absent string. -/
def truthy (x : Option String) : Bool :=
  match x with
  | none => false
  | some s => s ≠ ""

/-- A JS `Date` value: either a definite epoch-milliseconds instant or the
Invalid Date produced by `new Date` on an unparsable string. -/
inductive JsDate where
  | valid (ms : Int)
  | invalid
deriving DecidableEq, Repr

/-- Ambient host effects consumed by the mapping code: the `Date` string
parser (`none` = unparsable, giving Invalid Date) and the current clock. -/
structure Host where
  parseDateMs : String → Option Int
  nowMs : Int

/-- JS `new Date(s)` for a string argument. -/
def newDateFromString (h : Host) (s : String) : JsDate :=
  match h.parseDateMs s with
  | some ms => JsDate.valid ms
  | none => JsDate.invalid

/-- JS `new Date()`. -/
def newDateNow (h : Host) : JsDate :=
  JsDate.valid h.nowMs

/-! ## Raw wire payload shapes (from `twitter-api-v2`), restricted to the
fields the wrapper reads -/

/-- The `public_metrics` object of a raw tweet payload; every sub-field may
be absent independently. -/
structure RawTweetMetrics where
  like_count : Option Int
  retweet_count : Option Int
  reply_count : Option Int
  impression_count : Option Int
  quote_count : Option Int
  bookmark_count : Option Int
deriving DecidableEq, Repr

/-- An entry of a raw tweet's `referenced_tweets` list. At runtime `type` is
just a string (the source's cast performs no validation). -/
structure RawRef where
  type : String
  id : String
deriving DecidableEq, Repr

/-- A raw `TweetV2` payload, restricted to the fields requested by the
wrapper's `tweet.fields` list. -/
structure TweetV2 where
  id : String
  text : String
  author_id : Option String
  created_at : Option String
  public_metrics : Option RawTweetMetrics
  attachments_media_keys : Option (List String)
  referenced_tweets : Option (List RawRef)
deriving DecidableEq, Repr

/-- The `public_metrics` object of a raw user payload. -/
structure RawUserMetrics where
  followers_count : Option Int
  following_count : Option Int
  tweet_count : Option Int
deriving DecidableEq, Repr

/-- A raw `UserV2` payload, restricted to the requested `user.fields`. -/
structure UserV2 where
  id : String
  username : String
  name : String
  description : Option String
  profile_image_url : Option String
  public_metrics : Option RawUserMetrics
  verified : Option Bool
  created_at : Option String
deriving DecidableEq, Repr

/-- An included-media entry (`includes.media`), restricted to the requested
`media.fields`. -/
structure MediaV2 where
  media_key : String
  type : String
  url : Option String
  preview_image_url : Option String
  width : Option Int
  height : Option Int
  duration_ms : Option Int
deriving DecidableEq, Repr

/-! ## Domain model (from `src/lib/twitter/types.ts`) -/

/-- The domain `TweetMetrics`. -/
structure TweetMetrics where
  likes : Int
  retweets : Int
  replies : Int
  impressions : Int
  quotes : Int
  bookmarks : Int
deriving DecidableEq, Repr

/-- The domain `MediaAttachment`. The `type` is a string at runtime. -/
structure MediaAttachment where
  type : String
  url : String
  previewUrl : Option String
  width : Option Int
  height : Option Int
  durationMs : Option Int
deriving DecidableEq, Repr

/-- The domain `ReferencedTweet`. The `type` is a string at runtime; the source's
`as 'replied_to' | 'quoted' | 'retweeted'` cast performs no check. -/
structure ReferencedTweet where
  type : String
  id : String
deriving DecidableEq, Repr

/-- The domain `Tweet`. `media` and `referencedTweets` are optional fields
(`none` = the key is absent from the constructed object). -/
structure Tweet where
  id : String
  text : String
  authorId : String
  createdAt : JsDate
  metrics : TweetMetrics
  media : Option (List MediaAttachment)
  referencedTweets : Option (List ReferencedTweet)
deriving DecidableEq, Repr

/-- The domain `TwitterUser`. -/
structure TwitterUser where
  id : String
  username : String
  displayName : String
  description : String
  profileImageUrl : String
  followersCount : Int
  followingCount : Int
  tweetCount : Int
  verified : Bool
  createdAt : JsDate
deriving DecidableEq, Repr

/-- The domain `RateLimitInfo`. -/
structure RateLimitInfo where
  endpoint : String
  limit : Int
  remaining : Int
  reset : JsDate
deriving DecidableEq, Repr

/-- The `meta` part of a `PaginatedResponse`. -/
structure PageMeta where
  nextToken : Option String
  previousToken : Option String
  resultCount : Int
deriving DecidableEq, Repr

/-- The domain `PaginatedResponse<Tweet>`. -/
structure PaginatedTweets where
  data : List Tweet
  meta : PageMeta
deriving DecidableEq, Repr

/-! ## The rate-limit map (JS `Map<string, RateLimitInfo>`) -/

/-- The wrapper's `rateLimits` field: an association list in insertion
order. -/
abbrev RateLimitMap := List (String × RateLimitInfo)

/-- JS `Map.prototype.set`: update the existing entry in place (keeping
insertion order), else append a new one. -/
def mapSet (m : RateLimitMap) (k : String) (v : RateLimitInfo) : RateLimitMap :=
  if m.any (fun p => p.1 = k) then
    m.map (fun p => if p.1 = k then (k, v) else p)
  else
    m ++ [(k, v)]

/-- JS `Map.prototype.get`. -/
def mapGet (m : RateLimitMap) (k : String) : Option RateLimitInfo :=
  (m.find? (fun p => p.1 = k)).map (fun p => p.2)

/-- JS `Array.from(map.values())`. -/
def mapValues (m : RateLimitMap) : List RateLimitInfo :=
  m.map (fun p => p.2)

/-! ## Thrown values and `handleError` -/

/-- The `rateLimit` payload an error object may carry. -/
structure RateLimitPayload where
  limit : Int
  remaining : Int
  reset : Int
deriving DecidableEq, Repr

/-- A JS thrown value as `handleError` discriminates it: either an `Error`
instance (with its message and a possibly-present `rateLimit` field), or any
other value — which may itself carry rate-limit fields the handler never
inspects. -/
inductive ThrownValue where
  | errObj (message : String) (rateLimit : Option RateLimitPayload)
  | other (rateLimit : Option RateLimitPayload)
deriving DecidableEq, Repr

/-- Source `TwitterClient.handleError`, restricted to its effect on the
`rateLimits` map (logging has no observable effect on the state). -/
def handleError (error : ThrownValue) (context : String) (rateLimits : RateLimitMap) :
    RateLimitMap :=
  match error with
  | ThrownValue.errObj _ rl =>
    match rl with
    | some p =>
      mapSet rateLimits context
        { endpoint := context
          limit := p.limit
          remaining := p.remaining
          reset := JsDate.valid (p.reset * 1000) }
    | none => rateLimits
  | ThrownValue.other _ => rateLimits

/-! ## Mapping functions -/

/-- Source `TwitterClient.mapTweet`. The `mediaMap` parameter mirrors the source's
`mediaMap: Map<string, unknown>` argument, which the source body never
reads, so the constructed object carries no `media` key. -/
def mapTweet (h : Host) (tweet : TweetV2) (mediaMap : List (String × MediaV2)) : Tweet :=
  let metrics := tweet.public_metrics
  { id := tweet.id
    text := tweet.text
    authorId := jsOrStr tweet.author_id ""
    createdAt :=
      match tweet.created_at with
      | some s => if s = "" then newDateNow h else newDateFromString h s
      | none => newDateNow h
    metrics :=
      { likes := jsOrNum (metrics.bind (fun m => m.like_count)) 0
        retweets := jsOrNum (metrics.bind (fun m => m.retweet_count)) 0
        replies := jsOrNum (metrics.bind (fun m => m.reply_count)) 0
        impressions := jsOrNum (metrics.bind (fun m => m.impression_count)) 0
        quotes := jsOrNum (metrics.bind (fun m => m.quote_count)) 0
        bookmarks := jsOrNum (metrics.bind (fun m => m.bookmark_count)) 0 }
    media := none
    referencedTweets :=
      tweet.referenced_tweets.map (fun refs =>
        refs.map (fun ref => { type := ref.type, id := ref.id })) }

/-- Source `TwitterClient.mapUser`. -/
def mapUser (h : Host) (user : UserV2) : TwitterUser :=
  let metrics := user.public_metrics.getD
    { followers_count := none, following_count := none, tweet_count := none }
  { id := user.id
    username := user.username
    displayName := user.name
    description := jsOrStr user.description ""
    profileImageUrl := jsOrStr user.profile_image_url ""
    followersCount := jsOrNum metrics.followers_count 0
    followingCount := jsOrNum metrics.following_count 0
    tweetCount := jsOrNum metrics.tweet_count 0
    verified := user.verified.getD false
    createdAt :=
      match user.created_at with
      | some s => if s = "" then newDateNow h else newDateFromString h s
      | none => newDateNow h }

/-! ## Underlying-client response shapes -/

/-- The `v2.me()` response, as consumed by `!!me.data`. -/
structure MeResponse where
  data : Option UserV2
deriving Repr

/-- The `v2.userByUsername` / `v2.user` response. -/
structure UserResponse where
  data : Option UserV2
deriving Repr

/-- The `includes` payload (`response.includes?.media`). -/
structure IncludesPayload where
  media : Option (List MediaV2)
deriving DecidableEq, Repr

/-- The timeline/search paginator's raw body (`response.data?.data`). -/
structure TimelineBody where
  data : Option (List TweetV2)
deriving DecidableEq, Repr

/-- The paginator's `meta` payload. -/
structure TimelineMeta where
  next_token : Option String
  previous_token : Option String
  result_count : Option Int
deriving DecidableEq, Repr

/-- The `v2.userTimeline` / `v2.search` response, restricted to the
properties the wrapper reads. -/
structure TimelineResponse where
  data : Option TimelineBody
  includes : Option IncludesPayload
  meta : Option TimelineMeta
deriving DecidableEq, Repr

/-- The `v2.singleTweet` response. -/
structure SingleTweetResponse where
  data : Option TweetV2
  includes : Option IncludesPayload
deriving DecidableEq, Repr

/-- Source expression `new Map(response.includes?.media?.map((m) => [m.media_key, m]) || [])`. -/
def buildMediaMap (includes : Option IncludesPayload) : List (String × MediaV2) :=
  ((includes.bind (fun i => i.media)).getD []).map (fun m => (m.media_key, m))

/-! ## Wrapper operations

Each operation takes the outcome of its single underlying-client call as an
`Except ThrownValue` value (the `try`/`catch` boundary) and threads the
`rateLimits` state explicitly; none of them can propagate a thrown value. -/

/-- Source `TwitterClient.verifyCredentials`. Which probe is consulted depends on
the configured auth method (a runtime string). The catch branch only logs. -/
def verifyCredentials (authMethod : String)
    (meResult : Except ThrownValue MeResponse)
    (tweetsResult : Except ThrownValue Unit) : Bool :=
  if authMethod = "oauth1" then
    match meResult with
    | Except.ok me => me.data.isSome
    | Except.error _ => false
  else
    match tweetsResult with
    | Except.ok _ => true
    | Except.error _ => false

/-- Source `TwitterClient.getUser`. -/
def getUser (h : Host) (resp : Except ThrownValue UserResponse) (st : RateLimitMap) :
    Option TwitterUser × RateLimitMap :=
  match resp with
  | Except.ok response =>
    match response.data with
    | none => (none, st)
    | some u => (some (mapUser h u), st)
  | Except.error e => (none, handleError e "getUser" st)

/-- Source `TwitterClient.getUserById`. -/
def getUserById (h : Host) (resp : Except ThrownValue UserResponse) (st : RateLimitMap) :
    Option TwitterUser × RateLimitMap :=
  match resp with
  | Except.ok response =>
    match response.data with
    | none => (none, st)
    | some u => (some (mapUser h u), st)
  | Except.error e => (none, handleError e "getUserById" st)

/-- Source `TwitterClient.getUserTweets`, from the point the underlying
`userTimeline` call has resolved or thrown. -/
def getUserTweets (h : Host) (resp : Except ThrownValue TimelineResponse)
    (st : RateLimitMap) : PaginatedTweets × RateLimitMap :=
  match resp with
  | Except.ok response =>
    let tweets := (response.data.bind (fun b => b.data)).getD []
    let mediaMap := buildMediaMap response.includes
    ({ data := tweets.map (fun t => mapTweet h t mediaMap)
       meta :=
        { nextToken := response.meta.bind (fun m => m.next_token)
          previousToken := response.meta.bind (fun m => m.previous_token)
          resultCount := jsOrNum (response.meta.bind (fun m => m.result_count)) 0 } }, st)
  | Except.error e =>
    ({ data := []
       meta := { nextToken := none, previousToken := none, resultCount := 0 } },
     handleError e "getUserTweets" st)

/-- Source `TwitterClient.getTweet`. -/
def getTweet (h : Host) (resp : Except ThrownValue SingleTweetResponse)
    (st : RateLimitMap) : Option Tweet × RateLimitMap :=
  match resp with
  | Except.ok response =>
    match response.data with
    | none => (none, st)
    | some t => (some (mapTweet h t (buildMediaMap response.includes)), st)
  | Except.error e => (none, handleError e "getTweet" st)

/-- Source `TwitterClient.searchTweets`, from the point the underlying `search`
call has resolved or thrown. Its success `meta` carries no previous token. -/
def searchTweets (h : Host) (resp : Except ThrownValue TimelineResponse)
    (st : RateLimitMap) : PaginatedTweets × RateLimitMap :=
  match resp with
  | Except.ok response =>
    let tweets := (response.data.bind (fun b => b.data)).getD []
    let mediaMap := buildMediaMap response.includes
    ({ data := tweets.map (fun t => mapTweet h t mediaMap)
       meta :=
        { nextToken := response.meta.bind (fun m => m.next_token)
          previousToken := none
          resultCount := jsOrNum (response.meta.bind (fun m => m.result_count)) 0 } }, st)
  | Except.error e =>
    ({ data := []
       meta := { nextToken := none, previousToken := none, resultCount := 0 } },
     handleError e "searchTweets" st)

/-- Source `TwitterClient.getRateLimitInfo`. -/
def getRateLimitInfo (st : RateLimitMap) (endpoint : String) : Option RateLimitInfo :=
  mapGet st endpoint

/-- Source `TwitterClient.getAllRateLimits`. -/
def getAllRateLimits (st : RateLimitMap) : List RateLimitInfo :=
  mapValues st

/-! ## Constructor (auth-method dispatch) -/

/-- Source `TwitterConfig` (from `src/config/env.ts`). -/
structure TwitterConfig where
  apiKey : String
  apiSecret : String
  accessToken : String
  accessTokenSecret : String
  bearerToken : String
deriving DecidableEq, Repr

/-- The credentials handed to the underlying `TwitterApi` constructor:
either a bearer token alone or the four user-context credentials. -/
inductive TwitterApiCreds where
  | bearer (token : String)
  | userContext (appKey appSecret accessToken accessSecret : String)
deriving DecidableEq, Repr

/-- The `TwitterClient` constructor's client construction. The auth-method
selector is a runtime string (`undefined` defaults to `"oauth2-app"`). -/
def constructorClient (config : TwitterConfig) (authMethod : Option String) :
    TwitterApiCreds :=
  let am := authMethod.getD "oauth2-app"
  if am = "oauth2-app" then
    TwitterApiCreds.bearer config.bearerToken
  else if am = "oauth1" then
    TwitterApiCreds.userContext config.apiKey config.apiSecret
      config.accessToken config.accessTokenSecret
  else
    TwitterApiCreds.bearer config.bearerToken

/-! ## Configuration loading (`src/config/env.ts`) -/

/-- The process environment: variable name to possibly-absent value. -/
abbrev Env := String → Option String

/-- Source `AppConfig.app`: the two enumerated-by-type but unvalidated-at-runtime
settings, which at runtime are plain strings. -/
structure AppSettings where
  environment : String
  logLevel : String
deriving DecidableEq, Repr

/-- Source `AppConfig`. -/
structure AppConfig where
  twitter : TwitterConfig
  anthropicApiKey : String
  app : AppSettings
deriving DecidableEq, Repr

/-- Source `getEnvVar`: throws when a required variable is absent or empty, and
otherwise yields `value ?? ''`. -/
def getEnvVar (env : Env) (name : String) (required : Bool) : Except String String :=
  let value := env name
  if required && !(truthy value) then
    Except.error ("Missing required environment variable: " ++ name)
  else
    Except.ok (value.getD "")

/-- Source `loadConfig`; the property initializers evaluate in source order, so the
first missing required variable throws. -/
def loadConfig (env : Env) : Except String AppConfig := do
  let apiKey ← getEnvVar env "TWITTER_API_KEY" true
  let apiSecret ← getEnvVar env "TWITTER_API_SECRET" true
  let accessToken ← getEnvVar env "TWITTER_ACCESS_TOKEN" true
  let accessTokenSecret ← getEnvVar env "TWITTER_ACCESS_TOKEN_SECRET" true
  let bearerToken ← getEnvVar env "TWITTER_BEARER_TOKEN" true
  let anthropicApiKey ← getEnvVar env "ANTHROPIC_API_KEY" false
  pure
    { twitter :=
        { apiKey := apiKey
          apiSecret := apiSecret
          accessToken := accessToken
          accessTokenSecret := accessTokenSecret
          bearerToken := bearerToken }
      anthropicApiKey := anthropicApiKey
      app :=
        { environment := jsOrStr (env "NODE_ENV") "development"
          logLevel := jsOrStr (env "LOG_LEVEL") "info" } }

/-- The five required environment variable names, in the order `loadConfig`
checks them. -/
def requiredVars : List String :=
  ["TWITTER_API_KEY", "TWITTER_API_SECRET", "TWITTER_ACCESS_TOKEN",
   "TWITTER_ACCESS_TOKEN_SECRET", "TWITTER_BEARER_TOKEN"]

/-! ## Concrete sample inputs used by witnesses and counterexamples -/

/-- A host whose date parser accepts nothing (as for strings JS `Date`
cannot parse) and a fixed clock. -/
def host0 : Host := { parseDateMs := fun _ => none, nowMs := 1700000000000 }

/-- A raw tweet with every optional field absent. -/
def tweetAbsent : TweetV2 :=
  { id := "t1", text := "hello", author_id := none, created_at := none,
    public_metrics := none, attachments_media_keys := none,
    referenced_tweets := none }

/-- A raw tweet with a non-empty creation timestamp the host cannot parse
and a referenced-tweets entry of an unrecognized kind. -/
def tweetUnparsable : TweetV2 :=
  { id := "t2", text := "x", author_id := some "9",
    created_at := some "not-a-date",
    public_metrics := some
      { like_count := some 3, retweet_count := none, reply_count := none,
        impression_count := none, quote_count := none, bookmark_count := none },
    attachments_media_keys := none,
    referenced_tweets := some [{ type := "weird_kind", id := "42" }] }

/-- A raw user payload resembling the repository's own mock fixture. -/
def user0 : UserV2 :=
  { id := "123", username := "testuser", name := "Test User",
    description := none, profile_image_url := none,
    public_metrics := some
      { followers_count := some 1000, following_count := some 500,
        tweet_count := some 100 },
    verified := none, created_at := none }

/-- An included-media entry with key "m1". -/
def mediaIncluded : MediaV2 :=
  { media_key := "m1", type := "photo",
    url := some "https://example.com/p.jpg", preview_image_url := none,
    width := some 100, height := some 200, duration_ms := none }

/-- A raw tweet referencing media key "m1" through its attachments. -/
def tweetWithMedia : TweetV2 :=
  { id := "t3", text := "pic", author_id := some "9", created_at := none,
    public_metrics := none, attachments_media_keys := some ["m1"],
    referenced_tweets := none }

/-- A single-tweet response whose tweet's media key matches an entry of the
included-media payload. -/
def respWithMedia : SingleTweetResponse :=
  { data := some tweetWithMedia,
    includes := some { media := some [mediaIncluded] } }

/-- A raw tweet carrying a negative like count. -/
def tweetNegative : TweetV2 :=
  { id := "t4", text := "n", author_id := none, created_at := none,
    public_metrics := some
      { like_count := some (-5), retweet_count := none, reply_count := none,
        impression_count := none, quote_count := none, bookmark_count := none },
    attachments_media_keys := none, referenced_tweets := none }

/-- A raw user carrying a negative followers count. -/
def userNegative : UserV2 :=
  { id := "7", username := "neg", name := "Neg",
    description := none, profile_image_url := none,
    public_metrics := some
      { followers_count := some (-3), following_count := none,
        tweet_count := none },
    verified := none, created_at := none }

/-- A possibly-absent raw numeric field that is non-negative when present. -/
def nonNegOpt (x : Option Int) : Prop :=
  match x with
  | none => True
  | some v => 0 ≤ v

/-- A concrete credentials value. -/
def cfg0 : TwitterConfig :=
  { apiKey := "k", apiSecret := "s", accessToken := "at",
    accessTokenSecret := "ats", bearerToken := "btok" }

/-- An environment with no variable set. -/
def envEmpty : Env := fun _ => none

/-- An environment where exactly one required variable (the bearer token)
is missing and everything else is set non-empty. -/
def envNoBearer : Env := fun n =>
  if n = "TWITTER_BEARER_TOKEN" then none else some "x"

/-- An environment with all five required variables set and the optional
ones unset. -/
def env9 : Env := fun n =>
  if n ∈ requiredVars then some ("val-" ++ n) else none

/-- An environment with the five required variables set and NODE_ENV /
LOG_LEVEL holding strings outside their enumerations. -/
def envPass : Env := fun n =>
  if n = "NODE_ENV" then some "staging"
  else if n = "LOG_LEVEL" then some "verbose"
  else if n ∈ requiredVars then some "x" else none

/-- An environment with the five required variables set and NODE_ENV set to
the empty string. -/
def envEmptyNode : Env := fun n =>
  if n = "NODE_ENV" then some ""
  else if n ∈ requiredVars then some "x" else none

/-! ## Lemmas about the rate-limit map -/

/-- The key sequence of the map, in insertion order. -/
def mapKeys (m : RateLimitMap) : List String := m.map (fun p => p.1)

theorem find?_map_replace (m : RateLimitMap) (k : String) (v : RateLimitInfo)
    (hany : m.any (fun p => p.1 = k) = true) :
    (m.map (fun p => if p.1 = k then (k, v) else p)).find? (fun p => p.1 = k)
      = some (k, v) := by
  induction m with
  | nil => simp at hany
  | cons p m ih =>
    by_cases hp : p.1 = k
    · simp [hp]
    · have hm : m.any (fun p => p.1 = k) = true := by
        simpa [List.any_cons, hp] using hany
      simpa [hp] using ih hm

theorem find?_map_replace_ne (m : RateLimitMap) (k k' : String) (v : RateLimitInfo)
    (h : k' ≠ k) :
    (m.map (fun p => if p.1 = k then (k, v) else p)).find? (fun p => p.1 = k')
      = m.find? (fun p => p.1 = k') := by
  have hkk : ¬(k = k') := fun hkk => h hkk.symm
  induction m with
  | nil => simp
  | cons p m ih =>
    rw [List.map_cons]
    by_cases hp : p.1 = k
    · rw [if_pos hp]
      rw [List.find?_cons_of_neg _ (by simpa using hkk),
        List.find?_cons_of_neg _ (by simp only [hp, decide_eq_true_eq]; exact hkk)]
      exact ih
    · rw [if_neg hp]
      by_cases hp' : p.1 = k'
      · rw [List.find?_cons_of_pos _ (by simpa using hp'),
          List.find?_cons_of_pos _ (by simpa using hp')]
      · rw [List.find?_cons_of_neg _ (by simpa using hp'),
          List.find?_cons_of_neg _ (by simpa using hp')]
        exact ih

theorem mapGet_mapSet_self (m : RateLimitMap) (k : String) (v : RateLimitInfo) :
    mapGet (mapSet m k v) k = some v := by
  unfold mapGet mapSet
  by_cases hany : m.any (fun p => p.1 = k) = true
  · simp [hany, find?_map_replace m k v hany]
  · have hnone : m.find? (fun p => p.1 = k) = none := by
      rw [List.find?_eq_none]
      intro p hp
      simp only [List.any_eq_true, not_exists, not_and] at hany
      simpa using hany p hp
    simp [hany, List.find?_append, hnone]

theorem mapGet_mapSet_ne (m : RateLimitMap) (k k' : String) (v : RateLimitInfo)
    (h : k' ≠ k) :
    mapGet (mapSet m k v) k' = mapGet m k' := by
  unfold mapGet mapSet
  by_cases hany : m.any (fun p => p.1 = k) = true
  · simp [hany, find?_map_replace_ne m k k' v h]
  · have hk : ¬(k = k') := fun hkk => h hkk.symm
    simp [hany, List.find?_append, hk]

theorem mapKeys_mapSet_nodup (m : RateLimitMap) (k : String) (v : RateLimitInfo)
    (h : (mapKeys m).Nodup) : (mapKeys (mapSet m k v)).Nodup := by
  unfold mapSet
  by_cases hany : m.any (fun p => p.1 = k) = true
  · have hkeys : mapKeys (m.map (fun p => if p.1 = k then (k, v) else p)) = mapKeys m := by
      unfold mapKeys
      rw [List.map_map]
      refine List.map_congr_left ?_
      intro p _
      by_cases hp : p.1 = k
      · simp [hp]
      · simp [hp]
    simpa [hany, hkeys] using h
  · have hnot : k ∉ mapKeys m := by
      intro hmem
      unfold mapKeys at hmem
      rcases List.mem_map.mp hmem with ⟨p, hp, hpk⟩
      simp only [List.any_eq_true, not_exists, not_and] at hany
      exact absurd (by simpa using hpk) (by simpa using hany p hp)
    have : mapKeys (m ++ [(k, v)]) = mapKeys m ++ [k] := by
      unfold mapKeys; simp
    rw [if_neg hany, this]
    simp [List.nodup_append, h, List.disjoint_singleton]
    intro hmem
    exact hnot hmem

theorem exceptBind_ok {A B : Type} (a : A) (f : A → Except String B) :
    (Except.ok a >>= f) = f a := rfl

theorem exceptBind_error {A B : Type} (e : String) (f : A → Except String B) :
    ((Except.error e : Except String A) >>= f) = Except.error e := rfl

theorem jsOrNum_nonneg (x : Option Int) (hx : nonNegOpt x) : 0 ≤ jsOrNum x 0 := by
  cases x with
  | none => simp [jsOrNum]
  | some v =>
    by_cases hv : v = 0
    · simp [jsOrNum, hv]
    · simpa [jsOrNum, hv] using hx

end XBuzz

namespace XBuzz

/-! ## Claim theorems -/

/-- Claim C1 — For every wrapper operation (verifyCredentials, getUser,
getUserById, getUserTweets, getTweet, searchTweets) and every error thrown
by the underlying client during that operation, the operation does not
propagate the exception: it returns the documented benign failure result —
`false` for verifyCredentials, `null` for getUser/getUserById/getTweet, and
a paginated response with empty data and `resultCount` 0 for
getUserTweets/searchTweets. (The embedding's operations are total functions
into the plain result type, so no exception can propagate; the theorem pins
the value returned on the catch path.) -/
theorem C1_operations_swallow_errors (h : Host) (am : String) (e : ThrownValue)
    (st : RateLimitMap) :
    verifyCredentials am (Except.error e) (Except.error e) = false ∧
    (getUser h (Except.error e) st).1 = none ∧
    (getUserById h (Except.error e) st).1 = none ∧
    (getTweet h (Except.error e) st).1 = none ∧
    (getUserTweets h (Except.error e) st).1.data = [] ∧
    (getUserTweets h (Except.error e) st).1.meta.resultCount = 0 ∧
    (searchTweets h (Except.error e) st).1.data = [] ∧
    (searchTweets h (Except.error e) st).1.meta.resultCount = 0 := by
  refine ⟨?_, rfl, rfl, rfl, rfl, rfl, rfl, rfl⟩
  unfold verifyCredentials
  by_cases ham : am = "oauth1" <;> simp [ham]

/-- Claim C2 — Whenever a wrapper operation fails with an `Error` carrying a
rate-limit payload, a snapshot keyed by the logical operation name is
recorded, overwriting any previous entry for that name (keys stay
duplicate-free, and no other operation name's entry changes), with the
reset converted to epoch-seconds × 1000; an `Error` without rate-limit
metadata records no snapshot. The operation-level conjuncts show the key
used by `getUserTweets` is its own operation name. -/
theorem C2_rate_limit_snapshot (h : Host) (msg ctx other : String)
    (p : RateLimitPayload) (st : RateLimitMap)
    (hother : other ≠ ctx) (hother2 : other ≠ "getUserTweets")
    (hnodup : (mapKeys st).Nodup) :
    mapGet (handleError (ThrownValue.errObj msg (some p)) ctx st) ctx
      = some { endpoint := ctx, limit := p.limit, remaining := p.remaining,
               reset := JsDate.valid (p.reset * 1000) } ∧
    mapGet (handleError (ThrownValue.errObj msg (some p)) ctx st) other
      = mapGet st other ∧
    (mapKeys (handleError (ThrownValue.errObj msg (some p)) ctx st)).Nodup ∧
    handleError (ThrownValue.errObj msg none) ctx st = st ∧
    mapGet (getUserTweets h (Except.error (ThrownValue.errObj msg (some p))) st).2
        "getUserTweets"
      = some { endpoint := "getUserTweets", limit := p.limit,
               remaining := p.remaining,
               reset := JsDate.valid (p.reset * 1000) } ∧
    mapGet (getUserTweets h (Except.error (ThrownValue.errObj msg (some p))) st).2 other
      = mapGet st other := by
  refine ⟨?_, ?_, ?_, rfl, ?_, ?_⟩
  · exact mapGet_mapSet_self st ctx _
  · exact mapGet_mapSet_ne st ctx other _ hother
  · exact mapKeys_mapSet_nodup st ctx _ hnodup
  · exact mapGet_mapSet_self st "getUserTweets" _
  · exact mapGet_mapSet_ne st "getUserTweets" other _ hother2

/-- Witness for C2 at a concrete failing call: limit 15, remaining 0, reset
epoch 1000 recorded under "getUserTweets" and invisible under "getUser". -/
theorem C2_rate_limit_snapshot_witness :
    mapGet (handleError (ThrownValue.errObj "Rate limit exceeded"
        (some { limit := 15, remaining := 0, reset := 1000 })) "getUserTweets"
        ([] : RateLimitMap)) "getUserTweets"
      = some { endpoint := "getUserTweets", limit := 15, remaining := 0,
               reset := JsDate.valid 1000000 } ∧
    mapGet (handleError (ThrownValue.errObj "Rate limit exceeded"
        (some { limit := 15, remaining := 0, reset := 1000 })) "getUserTweets"
        ([] : RateLimitMap)) "getUser"
      = mapGet ([] : RateLimitMap) "getUser" := by
  have hmain := C2_rate_limit_snapshot host0 "Rate limit exceeded"
    "getUserTweets" "getUser" { limit := 15, remaining := 0, reset := 1000 } []
    (by decide) (by decide) (by simp [mapKeys])
  exact ⟨hmain.1, hmain.2.1⟩

/-- Claim C3, counterexample — The claim says an absent *or unparsable*
creation timestamp maps to the current time at mapping time. On a raw tweet
whose `created_at` is a non-empty string the host cannot parse, the source's
`tweet.created_at ? new Date(tweet.created_at) : new Date()` takes the first
branch and yields an Invalid Date, not the current time. -/
theorem C3_unparsable_counterexample :
    host0.parseDateMs "not-a-date" = none ∧
    tweetUnparsable.created_at = some "not-a-date" ∧
    (mapTweet host0 tweetUnparsable []).createdAt = JsDate.invalid ∧
    (mapTweet host0 tweetUnparsable []).createdAt ≠ newDateNow host0 := by
  refine ⟨rfl, rfl, rfl, ?_⟩
  intro hcontra
  simp [newDateNow, host0, mapTweet, tweetUnparsable, newDateFromString] at hcontra

/-- Claim C3, amended — Each numeric metric sub-field of the post mapping
defaults to 0 independently when absent; an *absent* creation timestamp
maps to the current time at mapping time, while a present, non-empty,
unparsable one maps to an Invalid Date; the referenced-tweets field is
omitted entirely when the source list is absent, and a present list is
mapped entry-by-entry with kind and target id passed through verbatim
without validating the kind. -/
theorem C3_post_mapping_rules (h : Host) (t : TweetV2)
    (mm : List (String × MediaV2)) :
    (t.public_metrics.bind (fun m => m.like_count) = none →
      (mapTweet h t mm).metrics.likes = 0) ∧
    (t.public_metrics.bind (fun m => m.retweet_count) = none →
      (mapTweet h t mm).metrics.retweets = 0) ∧
    (t.public_metrics.bind (fun m => m.reply_count) = none →
      (mapTweet h t mm).metrics.replies = 0) ∧
    (t.public_metrics.bind (fun m => m.impression_count) = none →
      (mapTweet h t mm).metrics.impressions = 0) ∧
    (t.public_metrics.bind (fun m => m.quote_count) = none →
      (mapTweet h t mm).metrics.quotes = 0) ∧
    (t.public_metrics.bind (fun m => m.bookmark_count) = none →
      (mapTweet h t mm).metrics.bookmarks = 0) ∧
    (t.created_at = none → (mapTweet h t mm).createdAt = newDateNow h) ∧
    (∀ s, t.created_at = some s → s ≠ "" → h.parseDateMs s = none →
      (mapTweet h t mm).createdAt = JsDate.invalid) ∧
    (t.referenced_tweets = none → (mapTweet h t mm).referencedTweets = none) ∧
    (∀ refs, t.referenced_tweets = some refs →
      (mapTweet h t mm).referencedTweets
        = some (refs.map (fun r => { type := r.type, id := r.id }))) := by
  refine ⟨fun hx => ?_, fun hx => ?_, fun hx => ?_, fun hx => ?_, fun hx => ?_,
    fun hx => ?_, fun hx => ?_, fun s hs hs' hp => ?_, fun hx => ?_,
    fun refs hr => ?_⟩
  · simp [mapTweet, hx, jsOrNum]
  · simp [mapTweet, hx, jsOrNum]
  · simp [mapTweet, hx, jsOrNum]
  · simp [mapTweet, hx, jsOrNum]
  · simp [mapTweet, hx, jsOrNum]
  · simp [mapTweet, hx, jsOrNum]
  · simp [mapTweet, hx]
  · simp [mapTweet, hs, hs', newDateFromString, hp]
  · simp [mapTweet, hx]
  · simp [mapTweet, hr]

/-- Witness for C3: the amended rules evaluated on a tweet with everything
absent and on one with an unparsable timestamp and an unrecognized
reference kind. -/
theorem C3_post_mapping_rules_witness :
    (mapTweet host0 tweetAbsent []).metrics.likes = 0 ∧
    (mapTweet host0 tweetAbsent []).createdAt = newDateNow host0 ∧
    (mapTweet host0 tweetAbsent []).referencedTweets = none ∧
    (mapTweet host0 tweetUnparsable []).createdAt = JsDate.invalid ∧
    (mapTweet host0 tweetUnparsable []).referencedTweets
      = some [{ type := "weird_kind", id := "42" }] := by
  obtain ⟨a1, _, _, _, _, _, a7, _, a9, _⟩ := C3_post_mapping_rules host0 tweetAbsent []
  obtain ⟨_, _, _, _, _, _, _, b8, _, b10⟩ := C3_post_mapping_rules host0 tweetUnparsable []
  exact ⟨a1 rfl, a7 rfl, a9 rfl, b8 "not-a-date" rfl (by decide) rfl,
    b10 [{ type := "weird_kind", id := "42" }] rfl⟩

/-- Claim C4 — The claim says the mapped post's media attachment list is
populated exactly when the post's media keys match entries of the
included-media payload. In the source, `mapTweet` receives the media map
but never reads it, so the constructed post *never* carries media: here a
single-tweet response whose tweet references media key "m1" and whose
includes contain a matching entry still maps to a post with no media. -/
theorem C4_media_never_populated :
    (∀ (h : Host) (t : TweetV2) (mm : List (String × MediaV2)),
      (mapTweet h t mm).media = none) ∧
    tweetWithMedia.attachments_media_keys = some ["m1"] ∧
    (buildMediaMap respWithMedia.includes).find? (fun p => p.1 = "m1")
      = some ("m1", mediaIncluded) ∧
    ((getTweet host0 (Except.ok respWithMedia) []).1.map (fun t => t.media))
      = some none := by
  exact ⟨fun _ _ _ => rfl, rfl, rfl, rfl⟩

/-- Claim C5, counterexample — The claim says every metric and count field of
the mapped domain objects is non-negative for *every* raw payload,
including ones with negative numeric fields. A negative raw value is truthy
in JS, so `metrics?.like_count || 0` passes it through: a payload with
`like_count: -5` (resp. `followers_count: -3`) maps to a negative domain
metric. -/
theorem C5_negative_counterexample :
    (mapTweet host0 tweetNegative []).metrics.likes = -5 ∧
    (mapTweet host0 tweetNegative []).metrics.likes < 0 ∧
    (mapUser host0 userNegative).followersCount = -3 ∧
    (mapUser host0 userNegative).followersCount < 0 := by
  refine ⟨rfl, by decide, rfl, by decide⟩

/-- Claim C5, amended — For every raw payload whose present numeric metric
and count sub-fields are all non-negative, every metric and count field of
the mapped domain objects — Post metrics (likes, retweets, replies,
impressions, quotes, bookmarks) and UserProfile counts (followers,
following, posts) — is present (the domain fields are total, absent raw
sub-fields included) and non-negative. -/
theorem C5_metrics_nonneg (h : Host) (t : TweetV2) (mm : List (String × MediaV2))
    (u : UserV2)
    (h1 : nonNegOpt (t.public_metrics.bind (fun m => m.like_count)))
    (h2 : nonNegOpt (t.public_metrics.bind (fun m => m.retweet_count)))
    (h3 : nonNegOpt (t.public_metrics.bind (fun m => m.reply_count)))
    (h4 : nonNegOpt (t.public_metrics.bind (fun m => m.impression_count)))
    (h5 : nonNegOpt (t.public_metrics.bind (fun m => m.quote_count)))
    (h6 : nonNegOpt (t.public_metrics.bind (fun m => m.bookmark_count)))
    (h7 : nonNegOpt (u.public_metrics.bind (fun m => m.followers_count)))
    (h8 : nonNegOpt (u.public_metrics.bind (fun m => m.following_count)))
    (h9 : nonNegOpt (u.public_metrics.bind (fun m => m.tweet_count))) :
    0 ≤ (mapTweet h t mm).metrics.likes ∧
    0 ≤ (mapTweet h t mm).metrics.retweets ∧
    0 ≤ (mapTweet h t mm).metrics.replies ∧
    0 ≤ (mapTweet h t mm).metrics.impressions ∧
    0 ≤ (mapTweet h t mm).metrics.quotes ∧
    0 ≤ (mapTweet h t mm).metrics.bookmarks ∧
    0 ≤ (mapUser h u).followersCount ∧
    0 ≤ (mapUser h u).followingCount ∧
    0 ≤ (mapUser h u).tweetCount := by
  cases hpm : u.public_metrics with
  | none =>
    simp only [hpm, Option.bind_none] at h7 h8 h9
    exact ⟨jsOrNum_nonneg _ h1, jsOrNum_nonneg _ h2, jsOrNum_nonneg _ h3,
      jsOrNum_nonneg _ h4, jsOrNum_nonneg _ h5, jsOrNum_nonneg _ h6,
      by simpa [mapUser, hpm] using jsOrNum_nonneg _ h7,
      by simpa [mapUser, hpm] using jsOrNum_nonneg _ h8,
      by simpa [mapUser, hpm] using jsOrNum_nonneg _ h9⟩
  | some m =>
    simp only [hpm, Option.bind_some] at h7 h8 h9
    exact ⟨jsOrNum_nonneg _ h1, jsOrNum_nonneg _ h2, jsOrNum_nonneg _ h3,
      jsOrNum_nonneg _ h4, jsOrNum_nonneg _ h5, jsOrNum_nonneg _ h6,
      by simpa [mapUser, hpm] using jsOrNum_nonneg _ h7,
      by simpa [mapUser, hpm] using jsOrNum_nonneg _ h8,
      by simpa [mapUser, hpm] using jsOrNum_nonneg _ h9⟩

/-- Witness for C5 at concrete payloads: the all-absent tweet and the
repository's mock user fixture (1000/500/100). -/
theorem C5_metrics_nonneg_witness :
    0 ≤ (mapTweet host0 tweetAbsent []).metrics.likes ∧
    0 ≤ (mapUser host0 user0).followersCount := by
  have hmain := C5_metrics_nonneg host0 tweetAbsent [] user0
    (by simp [tweetAbsent, nonNegOpt]) (by simp [tweetAbsent, nonNegOpt])
    (by simp [tweetAbsent, nonNegOpt]) (by simp [tweetAbsent, nonNegOpt])
    (by simp [tweetAbsent, nonNegOpt]) (by simp [tweetAbsent, nonNegOpt])
    (by simp [user0, nonNegOpt]) (by simp [user0, nonNegOpt])
    (by simp [user0, nonNegOpt])
  exact ⟨hmain.1, hmain.2.2.2.2.2.2.1⟩

/-- Claim C6 — verifyCredentials probes differently by auth method: under
auth method "oauth1" it consults the "who am I" endpoint and returns true
iff a profile object is returned; under any other auth method it performs
the fetch-posts-by-id-list probe and returns true exactly when that call
does not throw; in either case a throwing probe yields false rather than a
thrown exception. -/
theorem C6_verify_dispatch (am : String) (me : Except ThrownValue MeResponse)
    (tw : Except ThrownValue Unit) (e : ThrownValue) :
    (am = "oauth1" →
      (verifyCredentials am me tw = true ↔
        ∃ r, me = Except.ok r ∧ r.data.isSome = true)) ∧
    (am ≠ "oauth1" →
      (verifyCredentials am me tw = true ↔ ∃ u, tw = Except.ok u)) ∧
    verifyCredentials am (Except.error e) (Except.error e) = false := by
  refine ⟨fun ham => ?_, fun ham => ?_, ?_⟩
  · subst ham
    cases me with
    | ok r => simp [verifyCredentials]
    | error e' => simp [verifyCredentials]
  · cases tw with
    | ok u => simp [verifyCredentials, ham]
    | error e' => simp [verifyCredentials, ham]
  · unfold verifyCredentials
    by_cases ham : am = "oauth1" <;> simp [ham]

/-- Witness for C6: an "oauth1" client with a profile-bearing "who am I"
response verifies, and an "oauth2-app" client verifies whenever the posts
probe resolves, even while the other probe would throw. -/
theorem C6_verify_dispatch_witness :
    verifyCredentials "oauth1" (Except.ok { data := some user0 })
      (Except.error (ThrownValue.other none)) = true ∧
    verifyCredentials "oauth2-app" (Except.error (ThrownValue.other none))
      (Except.ok ()) = true := by
  constructor
  · exact ((C6_verify_dispatch "oauth1" (Except.ok { data := some user0 })
      (Except.error (ThrownValue.other none)) (ThrownValue.other none)).1
        rfl).mpr ⟨{ data := some user0 }, rfl, rfl⟩
  · exact ((C6_verify_dispatch "oauth2-app" (Except.error (ThrownValue.other none))
      (Except.ok ()) (ThrownValue.other none)).2.1 (by decide)).mpr ⟨(), rfl⟩

/-- Claim C7 — Constructing the wrapper with selector "oauth1" builds the
underlying client from the four user-context credentials; any other
selector — including the default when none is given and unrecognized
strings — builds it from the bearer token only. -/
theorem C7_auth_dispatch (config : TwitterConfig) (s : String)
    (hs : s ≠ "oauth1") :
    constructorClient config (some "oauth1")
      = TwitterApiCreds.userContext config.apiKey config.apiSecret
          config.accessToken config.accessTokenSecret ∧
    constructorClient config none = TwitterApiCreds.bearer config.bearerToken ∧
    constructorClient config (some s) = TwitterApiCreds.bearer config.bearerToken := by
  refine ⟨rfl, rfl, ?_⟩
  unfold constructorClient
  by_cases h2 : s = "oauth2-app" <;> simp [h2, hs]

/-- Witness for C7 at a concrete config with the unrecognized selector
"oauth7": bearer-token-only construction. -/
theorem C7_auth_dispatch_witness :
    constructorClient cfg0 (some "oauth7") = TwitterApiCreds.bearer "btok" :=
  (C7_auth_dispatch cfg0 "oauth7" (by decide)).2.2

/-- Claim C8, counterexample — The claim says that whenever one of the five
required variables is missing or empty, `loadConfig` throws an error whose
message names *that specific* variable. In an environment where every
variable is missing, the bearer-token variable is missing, yet the error
thrown names only TWITTER_API_KEY — the first variable the loader checks —
not TWITTER_BEARER_TOKEN. -/
theorem C8_first_only_counterexample :
    envEmpty "TWITTER_BEARER_TOKEN" = none ∧
    loadConfig envEmpty
      = Except.error ("Missing required environment variable: "
          ++ "TWITTER_API_KEY") ∧
    ("Missing required environment variable: " ++ "TWITTER_API_KEY")
      ≠ ("Missing required environment variable: "
          ++ "TWITTER_BEARER_TOKEN") := by
  refine ⟨rfl, rfl, by decide⟩

/-- Claim C8, amended — If any of the five required environment variables is
missing or empty, `loadConfig` fails with an error naming a missing
required environment variable — namely the *first* one, in the loader's
check order (the order of `requiredVars`, pinned here through `find?`),
that is missing or empty; in particular, when the variable in question is
the only missing/empty one among the five, the error names that
variable. -/
theorem C8_missing_variable_error (env : Env) (v : String)
    (hv : v ∈ requiredVars) (hmiss : truthy (env v) = false) :
    (∃ w, requiredVars.find? (fun n => !(truthy (env n))) = some w ∧
      w ∈ requiredVars ∧ truthy (env w) = false ∧
      loadConfig env
        = Except.error ("Missing required environment variable: " ++ w)) ∧
    ((∀ u, u ∈ requiredVars → u ≠ v → truthy (env u) = true) →
      loadConfig env
        = Except.error ("Missing required environment variable: " ++ v)) := by
  by_cases b1 : truthy (env "TWITTER_API_KEY") = true
  case neg =>
    have b1' : truthy (env "TWITTER_API_KEY") = false := by simpa using b1
    have herr : loadConfig env
        = Except.error ("Missing required environment variable: "
            ++ "TWITTER_API_KEY") := by
      simp [loadConfig, getEnvVar, b1', exceptBind_error]
    have hfind : requiredVars.find? (fun n => !(truthy (env n)))
        = some "TWITTER_API_KEY" := by
      simp [requiredVars, List.find?_cons, b1']
    refine ⟨⟨"TWITTER_API_KEY", hfind, by simp [requiredVars], b1', herr⟩,
      fun hall => ?_⟩
    have hvk : v = "TWITTER_API_KEY" := by
      by_contra hne
      have htrue := hall "TWITTER_API_KEY" (by simp [requiredVars])
        (fun hh => hne hh.symm)
      rw [htrue] at b1'
      exact Bool.noConfusion b1'
    rw [hvk]
    exact herr
  case pos =>
  by_cases b2 : truthy (env "TWITTER_API_SECRET") = true
  case neg =>
    have b2' : truthy (env "TWITTER_API_SECRET") = false := by simpa using b2
    have herr : loadConfig env
        = Except.error ("Missing required environment variable: "
            ++ "TWITTER_API_SECRET") := by
      simp [loadConfig, getEnvVar, b1, b2', exceptBind_ok, exceptBind_error]
    have hfind : requiredVars.find? (fun n => !(truthy (env n)))
        = some "TWITTER_API_SECRET" := by
      simp [requiredVars, List.find?_cons, b1, b2']
    refine ⟨⟨"TWITTER_API_SECRET", hfind, by simp [requiredVars], b2', herr⟩,
      fun hall => ?_⟩
    have hvk : v = "TWITTER_API_SECRET" := by
      by_contra hne
      have htrue := hall "TWITTER_API_SECRET" (by simp [requiredVars])
        (fun hh => hne hh.symm)
      rw [htrue] at b2'
      exact Bool.noConfusion b2'
    rw [hvk]
    exact herr
  case pos =>
  by_cases b3 : truthy (env "TWITTER_ACCESS_TOKEN") = true
  case neg =>
    have b3' : truthy (env "TWITTER_ACCESS_TOKEN") = false := by simpa using b3
    have herr : loadConfig env
        = Except.error ("Missing required environment variable: "
            ++ "TWITTER_ACCESS_TOKEN") := by
      simp [loadConfig, getEnvVar, b1, b2, b3', exceptBind_ok, exceptBind_error]
    have hfind : requiredVars.find? (fun n => !(truthy (env n)))
        = some "TWITTER_ACCESS_TOKEN" := by
      simp [requiredVars, List.find?_cons, b1, b2, b3']
    refine ⟨⟨"TWITTER_ACCESS_TOKEN", hfind, by simp [requiredVars], b3', herr⟩,
      fun hall => ?_⟩
    have hvk : v = "TWITTER_ACCESS_TOKEN" := by
      by_contra hne
      have htrue := hall "TWITTER_ACCESS_TOKEN" (by simp [requiredVars])
        (fun hh => hne hh.symm)
      rw [htrue] at b3'
      exact Bool.noConfusion b3'
    rw [hvk]
    exact herr
  case pos =>
  by_cases b4 : truthy (env "TWITTER_ACCESS_TOKEN_SECRET") = true
  case neg =>
    have b4' : truthy (env "TWITTER_ACCESS_TOKEN_SECRET") = false := by
      simpa using b4
    have herr : loadConfig env
        = Except.error ("Missing required environment variable: "
            ++ "TWITTER_ACCESS_TOKEN_SECRET") := by
      simp [loadConfig, getEnvVar, b1, b2, b3, b4', exceptBind_ok,
        exceptBind_error]
    have hfind : requiredVars.find? (fun n => !(truthy (env n)))
        = some "TWITTER_ACCESS_TOKEN_SECRET" := by
      simp [requiredVars, List.find?_cons, b1, b2, b3, b4']
    refine ⟨⟨"TWITTER_ACCESS_TOKEN_SECRET", hfind, by simp [requiredVars], b4',
      herr⟩, fun hall => ?_⟩
    have hvk : v = "TWITTER_ACCESS_TOKEN_SECRET" := by
      by_contra hne
      have htrue := hall "TWITTER_ACCESS_TOKEN_SECRET" (by simp [requiredVars])
        (fun hh => hne hh.symm)
      rw [htrue] at b4'
      exact Bool.noConfusion b4'
    rw [hvk]
    exact herr
  case pos =>
  by_cases b5 : truthy (env "TWITTER_BEARER_TOKEN") = true
  case neg =>
    have b5' : truthy (env "TWITTER_BEARER_TOKEN") = false := by simpa using b5
    have herr : loadConfig env
        = Except.error ("Missing required environment variable: "
            ++ "TWITTER_BEARER_TOKEN") := by
      simp [loadConfig, getEnvVar, b1, b2, b3, b4, b5', exceptBind_ok,
        exceptBind_error]
    have hfind : requiredVars.find? (fun n => !(truthy (env n)))
        = some "TWITTER_BEARER_TOKEN" := by
      simp [requiredVars, List.find?_cons, b1, b2, b3, b4, b5']
    refine ⟨⟨"TWITTER_BEARER_TOKEN", hfind, by simp [requiredVars], b5', herr⟩,
      fun hall => ?_⟩
    have hvk : v = "TWITTER_BEARER_TOKEN" := by
      by_contra hne
      have htrue := hall "TWITTER_BEARER_TOKEN" (by simp [requiredVars])
        (fun hh => hne hh.symm)
      rw [htrue] at b5'
      exact Bool.noConfusion b5'
    rw [hvk]
    exact herr
  case pos =>
    exfalso
    simp only [requiredVars, List.mem_cons, List.not_mem_nil, or_false] at hv
    rcases hv with rfl | rfl | rfl | rfl | rfl
    · rw [b1] at hmiss; exact Bool.noConfusion hmiss
    · rw [b2] at hmiss; exact Bool.noConfusion hmiss
    · rw [b3] at hmiss; exact Bool.noConfusion hmiss
    · rw [b4] at hmiss; exact Bool.noConfusion hmiss
    · rw [b5] at hmiss; exact Bool.noConfusion hmiss

/-- Witness for C8 at the environment where exactly the bearer token is
missing: the error names it. -/
theorem C8_missing_variable_error_witness :
    loadConfig envNoBearer
      = Except.error ("Missing required environment variable: "
          ++ "TWITTER_BEARER_TOKEN") :=
  (C8_missing_variable_error envNoBearer "TWITTER_BEARER_TOKEN"
    (by decide) (by decide)).2 (by decide)

/-- Claim C9, counterexample — The claim says a NODE_ENV value outside its
enumeration passes through unchanged rather than rejected or defaulted. The
empty string is outside the enumeration, yet `process.env.NODE_ENV ||
'development'` treats it as falsy: with all required variables set and
NODE_ENV set to `""`, `loadConfig` succeeds with environment
"development", not `""`. -/
theorem C9_empty_string_counterexample :
    envEmptyNode "NODE_ENV" = some "" ∧
    ¬("" = "development" ∨ "" = "production" ∨ "" = "test") ∧
    (∃ c, loadConfig envEmptyNode = Except.ok c ∧
      c.app.environment = "development" ∧ c.app.environment ≠ "") := by
  exact ⟨rfl, by decide, ⟨_, rfl, rfl, by decide⟩⟩

/-- Claim C9, amended — For every environment in which the five required
variables are set non-empty: (a) when the optional variables (NODE_ENV,
LOG_LEVEL, ANTHROPIC_API_KEY) are unset, `loadConfig` succeeds with
environment "development", log level "info" and an empty assistant API key;
(b) whenever NODE_ENV is set to any *non-empty* string — in particular one
outside its enumeration — that raw string passes through unchanged rather
than being rejected or defaulted, and (c) likewise, independently, for
LOG_LEVEL (an empty value falls back to the default like an unset one). -/
theorem C9_defaults_and_passthrough (env : Env)
    (hreq : ∀ v, v ∈ requiredVars → truthy (env v) = true) :
    (env "NODE_ENV" = none → env "LOG_LEVEL" = none →
      env "ANTHROPIC_API_KEY" = none →
      ∃ c, loadConfig env = Except.ok c ∧
        c.app.environment = "development" ∧ c.app.logLevel = "info" ∧
        c.anthropicApiKey = "") ∧
    (∀ s, env "NODE_ENV" = some s → s ≠ "" →
      ∃ c, loadConfig env = Except.ok c ∧ c.app.environment = s) ∧
    (∀ t, env "LOG_LEVEL" = some t → t ≠ "" →
      ∃ c, loadConfig env = Except.ok c ∧ c.app.logLevel = t) := by
  have h1 := hreq "TWITTER_API_KEY" (by simp [requiredVars])
  have h2 := hreq "TWITTER_API_SECRET" (by simp [requiredVars])
  have h3 := hreq "TWITTER_ACCESS_TOKEN" (by simp [requiredVars])
  have h4 := hreq "TWITTER_ACCESS_TOKEN_SECRET" (by simp [requiredVars])
  have h5 := hreq "TWITTER_BEARER_TOKEN" (by simp [requiredVars])
  have hok : loadConfig env = Except.ok
      { twitter :=
          { apiKey := (env "TWITTER_API_KEY").getD ""
            apiSecret := (env "TWITTER_API_SECRET").getD ""
            accessToken := (env "TWITTER_ACCESS_TOKEN").getD ""
            accessTokenSecret := (env "TWITTER_ACCESS_TOKEN_SECRET").getD ""
            bearerToken := (env "TWITTER_BEARER_TOKEN").getD "" }
        anthropicApiKey := (env "ANTHROPIC_API_KEY").getD ""
        app :=
          { environment := jsOrStr (env "NODE_ENV") "development"
            logLevel := jsOrStr (env "LOG_LEVEL") "info" } } := by
    simp [loadConfig, getEnvVar, h1, h2, h3, h4, h5, exceptBind_ok]
  refine ⟨fun hn hl ha => ⟨_, hok, ?_, ?_, ?_⟩,
    fun s hs hs' => ⟨_, hok, ?_⟩, fun t ht ht' => ⟨_, hok, ?_⟩⟩
  · simp [jsOrStr, hn]
  · simp [jsOrStr, hl]
  · simp [ha]
  · simp [jsOrStr, hs, hs']
  · simp [jsOrStr, ht, ht']

/-- Witness for C9: the defaults conjunct at the environment with only the
five required variables set, and both pass-through conjuncts at the
environment carrying the unrecognized values "staging" and "verbose". -/
theorem C9_defaults_and_passthrough_witness :
    (∃ c, loadConfig env9 = Except.ok c ∧
      c.app.environment = "development" ∧ c.app.logLevel = "info" ∧
      c.anthropicApiKey = "") ∧
    (∃ c, loadConfig envPass = Except.ok c ∧ c.app.environment = "staging") ∧
    (∃ c, loadConfig envPass = Except.ok c ∧ c.app.logLevel = "verbose") :=
  ⟨(C9_defaults_and_passthrough env9 (by decide)).1 rfl rfl rfl,
   (C9_defaults_and_passthrough envPass (by decide)).2.1 "staging" rfl (by decide),
   (C9_defaults_and_passthrough envPass (by decide)).2.2 "verbose" rfl (by decide)⟩

/-- Claim C10 — A wrapper operation whose underlying call succeeds leaves the
rate-limit map unchanged; the map is mutated only by the error handler, and
only when the thrown value is an `Error` instance carrying a `rateLimit`
payload — a thrown non-`Error` value, even one carrying rate-limit fields,
records no snapshot, as does an `Error` without the payload. -/
theorem C10_success_frame (h : Host) (st : RateLimitMap) (ur : UserResponse)
    (tr : TimelineResponse) (sr : SingleTweetResponse) :
    (getUser h (Except.ok ur) st).2 = st ∧
    (getUserById h (Except.ok ur) st).2 = st ∧
    (getUserTweets h (Except.ok tr) st).2 = st ∧
    (getTweet h (Except.ok sr) st).2 = st ∧
    (searchTweets h (Except.ok tr) st).2 = st ∧
    (∀ rl ctx, handleError (ThrownValue.other rl) ctx st = st) ∧
    (∀ msg ctx, handleError (ThrownValue.errObj msg none) ctx st = st) := by
  refine ⟨?_, ?_, rfl, ?_, rfl, fun _ _ => rfl, fun _ _ => rfl⟩
  · cases hu : ur.data <;> simp [getUser, hu]
  · cases hu : ur.data <;> simp [getUserById, hu]
  · cases hd : sr.data <;> simp [getTweet, hd]

end XBuzz
